import Mathlib

/-!
Verification of the SortsAi client-side generation pipeline.

The development shallowly embeds the two source files of the repository:

* the generation client (getAI, searchProduct, generateScript,
  generateAudio, generateVisual), including the WAV container-wrapping
  logic inside generateAudio, and
* the App component's pipeline state machine (handleSearch,
  handleGenerateAssets, clearState, the auth message listener, the
  persistence restore effect, and handleDownloadAll).

Backend round trips are modelled by passing the backend's response (or a
thrown error) as an explicit argument; React state updates inside one
handler are modelled as a single pure state-to-state function, observable
once the handler settles.
-/

namespace SortsAi

/-! ## Audio container encoder (generateAudio's WAV-wrapping logic) -/

/-- Little-endian 16-bit field, as written by DataView.setUint16 with
littleEndian = true. -/
def le16 (n : Nat) : List Nat :=
  [n % 256, n / 256 % 256]

/-- Little-endian 32-bit field, as written by DataView.setUint32 with
littleEndian = true. -/
def le32 (n : Nat) : List Nat :=
  [n % 256, n / 256 % 256, n / 65536 % 256, n / 16777216 % 256]

/-- Big-endian 32-bit field, as written by DataView.setUint32 with
littleEndian = false (used for the four-character ASCII chunk tags). -/
def be32 (n : Nat) : List Nat :=
  [n / 16777216 % 256, n / 65536 % 256, n / 256 % 256, n % 256]

/-- Fixed sample geometry of the upstream TTS contract (generateAudio). -/
def sampleRate : Nat := 24000

def numChannels : Nat := 1

def bitsPerSample : Nat := 16

/-- The 44-byte WAV header built byte for byte as in generateAudio:
RIFF tag, file length 36 + data length, WAVE and fmt tags, format chunk
length 16, PCM format tag 1, channel count, sample rate, byte rate,
block align, bits per sample, data tag, data chunk length. -/
def wavHeader (dataLen : Nat) : List Nat :=
  be32 0x52494646 ++
  le32 (36 + dataLen) ++
  be32 0x57415645 ++
  be32 0x666d7420 ++
  le32 16 ++
  le16 1 ++
  le16 numChannels ++
  le32 sampleRate ++
  le32 (sampleRate * numChannels * (bitsPerSample / 8)) ++
  le16 (numChannels * (bitsPerSample / 8)) ++
  le16 bitsPerSample ++
  be32 0x64617461 ++
  le32 dataLen

/-- The bytes of the Blob built by generateAudio: header followed by the
raw PCM bytes. -/
def wavEncode (pcm : List Nat) : List Nat :=
  wavHeader pcm.length ++ pcm

/-- The header expanded to its 44 explicit bytes. -/
theorem wavEncode_eq (pcm : List Nat) :
    wavEncode pcm =
      0x52 :: 0x49 :: 0x46 :: 0x46 ::
      ((36 + pcm.length) % 256) :: ((36 + pcm.length) / 256 % 256) ::
      ((36 + pcm.length) / 65536 % 256) :: ((36 + pcm.length) / 16777216 % 256) ::
      0x57 :: 0x41 :: 0x56 :: 0x45 ::
      0x66 :: 0x6d :: 0x74 :: 0x20 ::
      16 :: 0 :: 0 :: 0 ::
      1 :: 0 ::
      1 :: 0 ::
      0xC0 :: 0x5D :: 0 :: 0 ::
      0x80 :: 0xBB :: 0 :: 0 ::
      2 :: 0 ::
      16 :: 0 ::
      0x64 :: 0x61 :: 0x74 :: 0x61 ::
      (pcm.length % 256) :: (pcm.length / 256 % 256) ::
      (pcm.length / 65536 % 256) :: (pcm.length / 16777216 % 256) ::
      pcm := by
  simp [wavEncode, wavHeader, be32, le32, le16, sampleRate, numChannels,
    bitsPerSample]

/-- C1: for every raw PCM byte sequence of even length N, the WAV wrapping
in generateAudio yields a binary object of length N + 44 whose header has
the ASCII tags RIFF, WAVE, fmt-space and data at offsets 0, 8, 12, 36, the
little-endian fields chunk size 36 + N at offset 4, format chunk length 16,
format tag 1, channel count 1, sample rate 24000, byte rate 48000, block
align 2, bits per sample 16, data chunk length N at offset 40, and whose
trailing N bytes are exactly the input PCM bytes. -/
theorem generateAudio_wav_layout (pcm : List Nat) (h : pcm.length % 2 = 0) :
    (wavEncode pcm).length = pcm.length + 44 ∧
    (wavEncode pcm).take 4 = [0x52, 0x49, 0x46, 0x46] ∧
    ((wavEncode pcm).drop 4).take 4 = le32 (36 + pcm.length) ∧
    ((wavEncode pcm).drop 8).take 4 = [0x57, 0x41, 0x56, 0x45] ∧
    ((wavEncode pcm).drop 12).take 4 = [0x66, 0x6d, 0x74, 0x20] ∧
    ((wavEncode pcm).drop 16).take 4 = le32 16 ∧
    ((wavEncode pcm).drop 20).take 2 = le16 1 ∧
    ((wavEncode pcm).drop 22).take 2 = le16 1 ∧
    ((wavEncode pcm).drop 24).take 4 = le32 24000 ∧
    ((wavEncode pcm).drop 28).take 4 = le32 48000 ∧
    ((wavEncode pcm).drop 32).take 2 = le16 2 ∧
    ((wavEncode pcm).drop 34).take 2 = le16 16 ∧
    ((wavEncode pcm).drop 36).take 4 = [0x64, 0x61, 0x74, 0x61] ∧
    ((wavEncode pcm).drop 40).take 4 = le32 pcm.length ∧
    (wavEncode pcm).drop 44 = pcm := by
  rw [wavEncode_eq]
  refine ⟨?_, rfl, rfl, rfl, rfl, rfl, rfl, rfl, rfl, rfl, rfl, rfl, rfl,
    rfl, rfl⟩
  simp

/-- C1 witness: the layout theorem applied at the concrete even-length
input [1, 2]. -/
theorem generateAudio_wav_layout_witness :
    (wavEncode [1, 2]).length = 2 + 44 :=
  (generateAudio_wav_layout [1, 2] (by decide)).1

/-! ## Generation client

Each operation of the generation client first calls getAI, which reads the
process-wide GEMINI_API_KEY and throws when it is absent or empty, and
only then performs its single network round trip.  The backend's response
(or the transport error it raised) is passed in as an explicit argument;
the returned Bool records whether the network round trip was attempted. -/

/-- Failure modes of the generation client. -/
inductive GenError
  /-- getAI threw: the GEMINI_API_KEY environment variable is missing. -/
  | configurationError
  /-- The backend round trip itself failed. -/
  | backendError (msg : String)
  /-- JSON.parse threw on the response text. -/
  | jsonParseError
deriving Repr, DecidableEq

/-- A JavaScript string is falsy exactly when it is empty; getAI treats a
falsy GEMINI_API_KEY (absent, or present but empty) as missing. -/
def keyFalsy (apiKey : Option String) : Bool :=
  match apiKey with
  | none => true
  | some k => k = ""

/-- getAI: throws configurationError when the API key is falsy, otherwise
hands a client handle to the caller. -/
def getAI (apiKey : Option String) : Except GenError Unit :=
  if keyFalsy apiKey then Except.error GenError.configurationError
  else Except.ok ()

/-- A minimal model of JavaScript JSON values, as produced by JSON.parse. -/
inductive Json
  | jnull
  | jstr (s : String)
  | jobj (fields : List (String × Json))

/-- Field lookup on a parsed JSON value: some when the value is an object
carrying the field, none otherwise. -/
def Json.getField : Json → String → Option Json
  | Json.jobj fields, k => fields.lookup k
  | _, _ => none

/-- A parsed payload carries the three required script fields when hook,
body and cta are all present. -/
def hasScriptFields (j : Json) : Bool :=
  (j.getField "hook").isSome && (j.getField "body").isSome &&
    (j.getField "cta").isSome

/-- searchProduct: getAI, then one generateContent round trip; returns
response.text verbatim (none models an absent text field). -/
def searchProduct (apiKey : Option String)
    (backend : Except GenError (Option String)) :
    Except GenError (Option String) × Bool :=
  match getAI apiKey with
  | Except.error e => (Except.error e, false)
  | Except.ok _ => (backend, true)

/-- generateScript: getAI, then one generateContent round trip, then
JSON.parse(response.text) returned with no client-side field validation.
The backend argument carries the parse outcome of the response text:
none models text that JSON.parse rejects, some j the parsed value. -/
def generateScript (apiKey : Option String)
    (backend : Except GenError (Option Json)) :
    Except GenError Json × Bool :=
  match getAI apiKey with
  | Except.error e => (Except.error e, false)
  | Except.ok _ =>
    match backend with
    | Except.error e => (Except.error e, true)
    | Except.ok none => (Except.error GenError.jsonParseError, true)
    | Except.ok (some j) => (Except.ok j, true)

/-- generateAudio: getAI, then one TTS round trip; when the first response
part has no inlineData it returns null, otherwise it decodes the PCM
bytes and wraps them in the WAV container.  The result models the bytes
backing the returned object URL. -/
def generateAudio (apiKey : Option String)
    (backend : Except GenError (Option (List Nat))) :
    Except GenError (Option (List Nat)) × Bool :=
  match getAI apiKey with
  | Except.error e => (Except.error e, false)
  | Except.ok _ =>
    match backend with
    | Except.error e => (Except.error e, true)
    | Except.ok none => (Except.ok none, true)
    | Except.ok (some pcm) => (Except.ok (some (wavEncode pcm)), true)

/-- generateVisual: getAI, then one image round trip; returns the first
inline image payload as a data URL, or null when no part carries one. -/
def generateVisual (apiKey : Option String)
    (backend : Except GenError (Option String)) :
    Except GenError (Option String) × Bool :=
  match getAI apiKey with
  | Except.error e => (Except.error e, false)
  | Except.ok _ =>
    match backend with
    | Except.error e => (Except.error e, true)
    | Except.ok none => (Except.ok none, true)
    | Except.ok (some d) =>
      (Except.ok (some ("data:image/png;base64," ++ d)), true)

/-- A concrete valid-JSON payload that lacks the cta field. -/
def payloadMissingCta : Json :=
  Json.jobj [("hook", Json.jstr "Amazing!"), ("body", Json.jstr "It works.")]

/-- C6 counterexample: on a payload that is valid JSON but lacks the cta
field, generateScript (with a configured key) returns the payload as a
success rather than failing, refuting the claim that every payload
without all three required fields is rejected. -/
theorem generateScript_no_field_validation_counterexample :
    hasScriptFields payloadMissingCta = false ∧
    (generateScript (some "key") (Except.ok (some payloadMissingCta))).1 =
      Except.ok payloadMissingCta := by
  constructor
  · rfl
  · rfl

/-- C6 amended: generateScript fails exactly when the key is falsy, the
round trip fails, or JSON.parse rejects the response text; any
successfully parsed JSON value, including one lacking hook, body or cta,
is returned as-is, the three-field requirement living only in the
request's responseSchema. -/
theorem generateScript_parse_behavior (apiKey : Option String)
    (k : String) (hk : apiKey = some k) (hne : k ≠ "") :
    (∀ j, generateScript apiKey (Except.ok (some j)) = (Except.ok j, true)) ∧
    generateScript apiKey (Except.ok none) =
      (Except.error GenError.jsonParseError, true) ∧
    (∀ e, generateScript apiKey (Except.error e) = (Except.error e, true)) := by
  subst hk
  have hfal : keyFalsy (some k) = false := by
    simp [keyFalsy, hne]
  refine ⟨fun j => ?_, ?_, fun e => ?_⟩ <;>
    simp [generateScript, getAI, hfal]

/-- C6 amended witness: the parse behavior at the concrete key "key" and
the payload lacking cta. -/
theorem generateScript_parse_behavior_witness :
    generateScript (some "key") (Except.ok (some payloadMissingCta)) =
      (Except.ok payloadMissingCta, true) :=
  (generateScript_parse_behavior (some "key") "key" rfl (by decide)).1
    payloadMissingCta

/-- C7: with a falsy (absent or empty) GEMINI_API_KEY, each of the four
generation operations fails with the configuration error and attempts no
network round trip, whatever the backend would have answered; and the
check is per call: the same operation called with a configured key does
attempt its round trip, so one call's outcome depends only on the key it
itself read. -/
theorem credential_checked_per_call (apiKey : Option String)
    (h : keyFalsy apiKey = true) :
    (∀ b, searchProduct apiKey b = (Except.error GenError.configurationError, false)) ∧
    (∀ b, generateScript apiKey b = (Except.error GenError.configurationError, false)) ∧
    (∀ b, generateAudio apiKey b = (Except.error GenError.configurationError, false)) ∧
    (∀ b, generateVisual apiKey b = (Except.error GenError.configurationError, false)) ∧
    (∀ (k : String) b, k ≠ "" → (searchProduct (some k) b).2 = true) ∧
    (∀ (k : String) b, k ≠ "" → (generateScript (some k) b).2 = true) ∧
    (∀ (k : String) b, k ≠ "" → (generateAudio (some k) b).2 = true) ∧
    (∀ (k : String) b, k ≠ "" → (generateVisual (some k) b).2 = true) := by
  refine ⟨fun b => ?_, fun b => ?_, fun b => ?_, fun b => ?_,
    fun k b hk => ?_, fun k b hk => ?_, fun k b hk => ?_, fun k b hk => ?_⟩
  · simp [searchProduct, getAI, h]
  · simp [generateScript, getAI, h]
  · simp [generateAudio, getAI, h]
  · simp [generateVisual, getAI, h]
  · cases b <;> simp [searchProduct, getAI, keyFalsy, hk]
  · rcases b with e | j
    · simp [generateScript, getAI, keyFalsy, hk]
    · cases j <;> simp [generateScript, getAI, keyFalsy, hk]
  · rcases b with e | a
    · simp [generateAudio, getAI, keyFalsy, hk]
    · cases a <;> simp [generateAudio, getAI, keyFalsy, hk]
  · rcases b with e | d
    · simp [generateVisual, getAI, keyFalsy, hk]
    · cases d <;> simp [generateVisual, getAI, keyFalsy, hk]

/-- C7 witness: the per-call credential check applied at the absent key. -/
theorem credential_checked_per_call_witness :
    searchProduct none (Except.ok (some "text")) =
      (Except.error GenError.configurationError, false) :=
  (credential_checked_per_call none rfl).1 (Except.ok (some "text"))

/-! ## Pipeline state machine (App.tsx)

Each React handler is modelled as a pure function from the pipeline state
(and the settled results of the awaited generator calls) to the next
pipeline state, observable once the handler settles.  A generator result
is an Except: error models a thrown rejection caught by the handler's
catch block, ok carries the resolved value (an Option, since the
generators resolve to null when the backend yields no usable payload). -/

/-- The script record held by the pipeline. -/
structure Script where
  hook : String
  body : String
  cta : String
deriving Repr, DecidableEq

/-- The step state: the stage of the pipeline.  The upload value exists in
the type vocabulary but no handler ever sets it. -/
inductive Step
  | search
  | script
  | preview
  | upload
deriving Repr, DecidableEq

/-- The two supported locales. -/
inductive Language
  | english
  | hindi
deriving Repr, DecidableEq

/-- The pipeline state aggregate held by the App component. -/
structure AppState where
  query : String
  language : Language
  step : Step
  productInfo : String
  script : Option Script
  audioUrl : Option String
  imageUrl : Option String
  error : Option String
deriving Repr, DecidableEq

/-- The initial pipeline state of a fresh mount. -/
def initialState : AppState :=
  { query := ""
    language := Language.english
    step := Step.search
    productInfo := ""
    script := none
    audioUrl := none
    imageUrl := none
    error := none }

/-- err.message with handleSearch's fallback for a falsy message. -/
def searchErrorMessage (msg : String) : String :=
  if msg = "" then
    "An unexpected error occurred during search. Please check your API key and connection."
  else msg

/-- The message of the error thrown when the lookup yields no usable
text. -/
def notFoundMessage : String :=
  "Could not find product information. Please try a different search term."

/-- The message of the error thrown when the parsed script is falsy. -/
def scriptFailedMessage : String :=
  "Failed to generate script."

/-- handleSearch: aborts on an empty query; otherwise clears the error,
awaits the product lookup, stores its text into productInfo, awaits the
script generation, and on success stores the script and advances to the
script stage.  A thrown error, an absent or empty lookup text, or a falsy
parsed script lands in the catch block, which records an error message
and leaves the stage where it was.  searchRes carries searchProduct's
settled outcome (none for an absent text), scriptRes carries
generateScript's (none for a parsed-but-falsy value). -/
def handleSearch (s : AppState) (searchRes : Except String (Option String))
    (scriptRes : Except String (Option Script)) : AppState :=
  if s.query = "" then s
  else
    match searchRes with
    | Except.error e =>
      { s with error := some (searchErrorMessage e) }
    | Except.ok info =>
      match info with
      | none =>
        { s with error := some notFoundMessage }
      | some t =>
        if t = "" then
          { s with error := some notFoundMessage }
        else
          match scriptRes with
          | Except.error e =>
            { s with productInfo := t, error := some (searchErrorMessage e) }
          | Except.ok none =>
            { s with productInfo := t, error := some scriptFailedMessage }
          | Except.ok (some scr) =>
            { s with
              productInfo := t
              error := none
              script := some scr
              step := Step.script }

/-- handleGenerateAssets: aborts on a null script; otherwise jointly
awaits generateAudio and generateVisual via Promise.all.  When both
resolve, it binds both artifacts (possibly null) and advances to the
preview stage; when either rejects, Promise.all rejects, the catch block
only logs, and the state is left untouched. -/
def handleGenerateAssets (s : AppState)
    (audioRes : Except String (Option String))
    (imageRes : Except String (Option String)) : AppState :=
  match s.script with
  | none => s
  | some _ =>
    match audioRes, imageRes with
    | Except.ok a, Except.ok i =>
      { s with audioUrl := a, imageUrl := i, step := Step.preview }
    | Except.error _, _ => s
    | _, Except.error _ => s

/-- clearState: resets query, step, productInfo, script and both artifact
references.  It does not touch language or error. -/
def clearState (s : AppState) : AppState :=
  { s with query := ""
           step := Step.search
           productInfo := ""
           script := none
           audioUrl := none
           imageUrl := none }

/-- The message listener: on a message whose data.type is
YOUTUBE_AUTH_SUCCESS it sets the connected flag and unconditionally sets
the step to preview; every other message is ignored.  It returns the next
pipeline state and the next ConnectionFlag. -/
def handleMessage (s : AppState) (connected : Bool) (msgType : String) :
    AppState × Bool :=
  if msgType = "YOUTUBE_AUTH_SUCCESS" then
    ({ s with step := Step.preview }, true)
  else (s, connected)

/-- The listener registered by the effect stays installed until unmount,
so it processes every delivered message in order, not only the first. -/
def processMessages (s : AppState) (connected : Bool) :
    List String → AppState × Bool
  | [] => (s, connected)
  | m :: ms =>
    let next := handleMessage s connected m
    processMessages next.1 next.2 ms

/-- The durable subset of the pipeline state written to localStorage on
every change: query, step, productInfo, script. -/
structure Snapshot where
  query : String
  step : Step
  productInfo : String
  script : Option Script
deriving Repr, DecidableEq

/-- clearState also removes the shorts_ai_state snapshot from
localStorage. -/
def clearStateStore : Option Snapshot → Option Snapshot :=
  fun _ => none

/-- The snapshot persisted from a pipeline state. -/
def persistSnapshot (s : AppState) : Snapshot :=
  { query := s.query
    step := s.step
    productInfo := s.productInfo
    script := s.script }

/-- The restore effect at mount: with no (or unreadable) saved snapshot
the state is left as mounted; with a snapshot it restores query, step,
productInfo and script verbatim and never restores the binary artifact
references. -/
def restoreState (s : AppState) : Option Snapshot → AppState
  | none => s
  | some snap =>
    { s with query := snap.query
             step := snap.step
             productInfo := snap.productInfo
             script := snap.script }

/-- The plain-text rendering of the script packed by handleDownloadAll. -/
def scriptText (scr : Script) : String :=
  "HOOK: " ++ scr.hook ++ "\n\nBODY: " ++ scr.body ++ "\n\nCTA: " ++ scr.cta

/-- handleDownloadAll: the entries (name, content) added to the zip, in
order; each absent piece contributes nothing. -/
def handleDownloadAll (s : AppState) : List (String × String) :=
  (match s.imageUrl with
   | some u => [("visual.png", u)]
   | none => []) ++
  (match s.audioUrl with
   | some u => [("audio.wav", u)]
   | none => []) ++
  (match s.script with
   | some scr => [("script.txt", scriptText scr)]
   | none => [])

/-- The pipeline states observable after startup restore and after each
handler, reset or delivered signal settles.  setQuery and setLanguage
model the controlled inputs (rendered at the search stage, though the
relation safely admits them anywhere), searchMid models the state
persisted between handleSearch's productInfo assignment and its second
await, search carries the UI guard that the search form is only rendered
at the search stage, and restore models a mount that restores a snapshot
persisted from an earlier observable state. -/
inductive Reachable : AppState → Prop
  | init : Reachable initialState
  | setQuery (s : AppState) (q : String) (h : Reachable s) :
      Reachable { s with query := q }
  | setLanguage (s : AppState) (l : Language) (h : Reachable s) :
      Reachable { s with language := l }
  | searchMid (s : AppState) (t : String) (h : Reachable s) :
      Reachable { s with productInfo := t, error := none }
  | search (s : AppState) (searchRes : Except String (Option String))
      (scriptRes : Except String (Option Script)) (h : Reachable s)
      (hstep : s.step = Step.search) :
      Reachable (handleSearch s searchRes scriptRes)
  | assets (s : AppState) (audioRes imageRes : Except String (Option String))
      (h : Reachable s) :
      Reachable (handleGenerateAssets s audioRes imageRes)
  | reset (s : AppState) (h : Reachable s) : Reachable (clearState s)
  | auth (s : AppState) (connected : Bool) (msgType : String)
      (h : Reachable s) :
      Reachable (handleMessage s connected msgType).1
  | restore (s : AppState) (h : Reachable s) :
      Reachable (restoreState initialState (some (persistSnapshot s)))

/-- The stage invariant: no non-null script at the search stage, and both
artifacts non-null only at the preview stage (with upload counted as a
sub-mode of preview). -/
def stageInvariant (s : AppState) : Prop :=
  (s.step = Step.search → s.script = none) ∧
  (s.audioUrl ≠ none → s.imageUrl ≠ none →
    s.step = Step.preview ∨ s.step = Step.upload)

/-- The stage invariant only reads step, script and the two artifact
references, so it transports along any update of the other fields. -/
theorem stageInvariant_fields (s t : AppState) (hstep : t.step = s.step)
    (hscr : t.script = s.script) (ha : t.audioUrl = s.audioUrl)
    (hi : t.imageUrl = s.imageUrl) (h : stageInvariant s) :
    stageInvariant t := by
  obtain ⟨h1, h2⟩ := h
  constructor
  · intro hs
    rw [hstep] at hs
    rw [hscr]
    exact h1 hs
  · intro hau him
    rw [ha] at hau
    rw [hi] at him
    rw [hstep]
    exact h2 hau him

/-- handleSearch preserves the stage invariant when fired, as in the UI,
at the search stage. -/
theorem handleSearch_stageInvariant (s : AppState)
    (searchRes : Except String (Option String))
    (scriptRes : Except String (Option Script))
    (hstep : s.step = Step.search) (ih : stageInvariant s) :
    stageInvariant (handleSearch s searchRes scriptRes) := by
  by_cases hq : s.query = ""
  · simpa [handleSearch, hq] using ih
  · rcases searchRes with e | info
    · exact stageInvariant_fields s _ (by simp [handleSearch, hq])
        (by simp [handleSearch, hq]) (by simp [handleSearch, hq])
        (by simp [handleSearch, hq]) ih
    · rcases info with _ | t
      · exact stageInvariant_fields s _ (by simp [handleSearch, hq])
          (by simp [handleSearch, hq]) (by simp [handleSearch, hq])
          (by simp [handleSearch, hq]) ih
      · by_cases ht : t = ""
        · exact stageInvariant_fields s _ (by simp [handleSearch, hq, ht])
            (by simp [handleSearch, hq, ht]) (by simp [handleSearch, hq, ht])
            (by simp [handleSearch, hq, ht]) ih
        · rcases scriptRes with e | oscr
          · exact stageInvariant_fields s _ (by simp [handleSearch, hq, ht])
              (by simp [handleSearch, hq, ht]) (by simp [handleSearch, hq, ht])
              (by simp [handleSearch, hq, ht]) ih
          · rcases oscr with _ | scrv
            · exact stageInvariant_fields s _ (by simp [handleSearch, hq, ht])
                (by simp [handleSearch, hq, ht]) (by simp [handleSearch, hq, ht])
                (by simp [handleSearch, hq, ht]) ih
            · constructor
              · intro hs
                simp [handleSearch, hq, ht] at hs
              · intro hau him
                have hau2 : s.audioUrl ≠ none := by
                  simpa [handleSearch, hq, ht] using hau
                have him2 : s.imageUrl ≠ none := by
                  simpa [handleSearch, hq, ht] using him
                have := ih.2 hau2 him2
                rw [hstep] at this
                rcases this with h1 | h1
                · exact absurd h1 (by decide)
                · exact absurd h1 (by decide)

/-- handleGenerateAssets preserves the stage invariant from any stage. -/
theorem handleGenerateAssets_stageInvariant (s : AppState)
    (audioRes imageRes : Except String (Option String))
    (ih : stageInvariant s) :
    stageInvariant (handleGenerateAssets s audioRes imageRes) := by
  rcases hs : s.script with _ | scrv
  · simpa [handleGenerateAssets, hs] using ih
  · rcases audioRes with e | a
    · rcases imageRes with e2 | i <;> simpa [handleGenerateAssets, hs] using ih
    · rcases imageRes with e2 | i
      · simpa [handleGenerateAssets, hs] using ih
      · constructor
        · intro hstep
          simp [handleGenerateAssets, hs] at hstep
        · intro _ _
          left
          simp [handleGenerateAssets, hs]

/-- clearState establishes the stage invariant outright. -/
theorem clearState_stageInvariant (s : AppState) :
    stageInvariant (clearState s) := by
  constructor
  · intro _
    rfl
  · intro hau _
    exact absurd rfl hau

/-- The auth message listener preserves the stage invariant. -/
theorem handleMessage_stageInvariant (s : AppState) (connected : Bool)
    (msgType : String) (ih : stageInvariant s) :
    stageInvariant (handleMessage s connected msgType).1 := by
  by_cases hm : msgType = "YOUTUBE_AUTH_SUCCESS"
  · constructor
    · intro hstep
      simp [handleMessage, hm] at hstep
    · intro _ _
      left
      simp [handleMessage, hm]
  · simpa [handleMessage, hm] using ih

/-- Restoring a snapshot persisted from an invariant-satisfying state
yields an invariant-satisfying state: step and script come back verbatim
and the artifacts stay unset. -/
theorem restoreState_stageInvariant (s : AppState) (ih : stageInvariant s) :
    stageInvariant (restoreState initialState (some (persistSnapshot s))) := by
  constructor
  · intro hstep
    exact ih.1 hstep
  · intro hau _
    exact absurd rfl hau

/-- C3: every observable pipeline state satisfies the stage invariant:
the script is never non-null while the stage is search, and the two
artifacts are never both non-null while the stage is outside preview
(counting upload as part of preview). -/
theorem pipeline_stage_invariant (s : AppState) (h : Reachable s) :
    stageInvariant s := by
  induction h with
  | init => exact ⟨fun _ => rfl, fun hau _ => absurd rfl hau⟩
  | setQuery s q h ih => exact stageInvariant_fields s _ rfl rfl rfl rfl ih
  | setLanguage s l h ih => exact stageInvariant_fields s _ rfl rfl rfl rfl ih
  | searchMid s t h ih => exact stageInvariant_fields s _ rfl rfl rfl rfl ih
  | search s searchRes scriptRes h hstep ih =>
    exact handleSearch_stageInvariant s searchRes scriptRes hstep ih
  | assets s audioRes imageRes h ih =>
    exact handleGenerateAssets_stageInvariant s audioRes imageRes ih
  | reset s h ih => exact clearState_stageInvariant s
  | auth s connected msgType h ih =>
    exact handleMessage_stageInvariant s connected msgType ih
  | restore s h ih => exact restoreState_stageInvariant s ih

/-- C3 witness: the invariant theorem applied at the initial state, whose
reachability is immediate. -/
theorem pipeline_stage_invariant_witness : stageInvariant initialState :=
  pipeline_stage_invariant initialState Reachable.init

/-- C2: when exactly one of the two jointly awaited generators rejects
while the other resolves, Promise.all rejects, the catch block only logs,
and the settled state is the starting state unchanged: both artifacts
remain unset (they were unset at the script stage), the stage remains
script, and the value the succeeding generator produced is nowhere
retained. -/
theorem assets_transition_atomic (s : AppState) (scr : Script)
    (audioRes imageRes : Except String (Option String))
    (hstep : s.step = Step.script) (hscr : s.script = some scr)
    (ha : s.audioUrl = none) (hi : s.imageUrl = none)
    (hone : ((∃ a, audioRes = Except.ok a) ∧ ∃ e, imageRes = Except.error e) ∨
      ((∃ e, audioRes = Except.error e) ∧ ∃ i, imageRes = Except.ok i)) :
    handleGenerateAssets s audioRes imageRes = s ∧
    (handleGenerateAssets s audioRes imageRes).audioUrl = none ∧
    (handleGenerateAssets s audioRes imageRes).imageUrl = none ∧
    (handleGenerateAssets s audioRes imageRes).step = Step.script := by
  have heq : handleGenerateAssets s audioRes imageRes = s := by
    rcases hone with ⟨⟨a, rfl⟩, e, rfl⟩ | ⟨⟨e, rfl⟩, i, rfl⟩ <;>
      simp [handleGenerateAssets, hscr]
  refine ⟨heq, ?_, ?_, ?_⟩ <;> rw [heq]
  · exact ha
  · exact hi
  · exact hstep

/-- A concrete observable state at the script stage. -/
def scriptStageState : AppState :=
  { initialState with
    query := "Test Widget"
    productInfo := "Widget is great"
    script := some { hook := "Amazing!", body := "It works.", cta := "Buy now!" }
    step := Step.script }

/-- C2 witness: the atomicity theorem applied at the concrete script-stage
state with a succeeding audio generator and a rejecting image generator. -/
theorem assets_transition_atomic_witness :
    handleGenerateAssets scriptStageState (Except.ok (some "blob:audio"))
      (Except.error "boom") = scriptStageState :=
  (assets_transition_atomic scriptStageState
      { hook := "Amazing!", body := "It works.", cta := "Buy now!" }
      (Except.ok (some "blob:audio")) (Except.error "boom")
      rfl rfl rfl rfl
      (Or.inl ⟨⟨some "blob:audio", rfl⟩, "boom", rfl⟩)).1

/-- C4: whenever the lookup or the script generation of handleSearch
fails - a thrown error, an absent or empty lookup text, or a falsy parsed
script - the transition aborts: the stage stays at search, a user-visible
error message is recorded, the script stays null, and in the case where
the lookup had already succeeded the looked-up text is kept in
productInfo even though the stage does not advance. -/
theorem search_transition_aborts (s : AppState)
    (searchRes : Except String (Option String))
    (scriptRes : Except String (Option Script))
    (hq : s.query ≠ "") (hstep : s.step = Step.search)
    (hscr : s.script = none)
    (hfail : (∃ e, searchRes = Except.error e) ∨
      searchRes = Except.ok none ∨ searchRes = Except.ok (some "") ∨
      (∃ t, searchRes = Except.ok (some t) ∧ t ≠ "" ∧
        ((∃ e, scriptRes = Except.error e) ∨ scriptRes = Except.ok none))) :
    (handleSearch s searchRes scriptRes).step = Step.search ∧
    (∃ m, (handleSearch s searchRes scriptRes).error = some m) ∧
    (handleSearch s searchRes scriptRes).script = none ∧
    (∀ t, searchRes = Except.ok (some t) → t ≠ "" →
      (handleSearch s searchRes scriptRes).productInfo = t) := by
  rcases hfail with ⟨e, rfl⟩ | rfl | rfl | ⟨t, rfl, ht, hsf⟩
  · exact ⟨by simp [handleSearch, hq, hstep],
      ⟨searchErrorMessage e, by simp [handleSearch, hq]⟩,
      by simp [handleSearch, hq, hscr],
      fun t h2 => by simp at h2⟩
  · exact ⟨by simp [handleSearch, hq, hstep],
      ⟨notFoundMessage, by simp [handleSearch, hq]⟩,
      by simp [handleSearch, hq, hscr],
      fun t h2 => by simp at h2⟩
  · exact ⟨by simp [handleSearch, hq, hstep],
      ⟨notFoundMessage, by simp [handleSearch, hq]⟩,
      by simp [handleSearch, hq, hscr],
      fun t h2 h3 => by simp at h2; exact absurd h2.symm h3⟩
  · rcases hsf with ⟨e, rfl⟩ | rfl
    · exact ⟨by simp [handleSearch, hq, ht, hstep],
        ⟨searchErrorMessage e, by simp [handleSearch, hq, ht]⟩,
        by simp [handleSearch, hq, ht, hscr],
        fun u h2 _ => by
          have h3 : t = u := by simpa using h2
          subst h3
          simp [handleSearch, hq, ht]⟩
    · exact ⟨by simp [handleSearch, hq, ht, hstep],
        ⟨scriptFailedMessage, by simp [handleSearch, hq, ht]⟩,
        by simp [handleSearch, hq, ht, hscr],
        fun u h2 _ => by
          have h3 : t = u := by simpa using h2
          subst h3
          simp [handleSearch, hq, ht]⟩

/-- A concrete observable state at the search stage with a query typed
in. -/
def searchStageState : AppState :=
  { initialState with query := "Test Widget" }

/-- C4 witness: the abort theorem applied at the concrete search-stage
state with a successful lookup and a rejecting script generation; the
stage stays search. -/
theorem search_transition_aborts_witness :
    (handleSearch searchStageState (Except.ok (some "Widget is great"))
      (Except.error "boom")).step = Step.search :=
  (search_transition_aborts searchStageState
      (Except.ok (some "Widget is great")) (Except.error "boom")
      (by decide) rfl rfl
      (Or.inr (Or.inr (Or.inr ⟨"Widget is great", rfl, by decide,
        Or.inl ⟨"boom", rfl⟩⟩)))).1

/-- A reachable state at the preview stage carrying a non-null error and
the Hindi language: the query and language are set at the search stage,
the lookup then rejects (recording the error), and the one-shot auth
signal then moves the stage to preview. -/
def staleFieldsState : AppState :=
  (handleMessage
    (handleSearch { initialState with query := "Test Widget", language := Language.hindi }
      (Except.error "Network failure") (Except.error "Network failure"))
    false "YOUTUBE_AUTH_SUCCESS").1

/-- C5 counterexample: invoking clearState at the reachable preview-stage
state staleFieldsState leaves lastError at its non-null value and
language at Hindi, so the reset does not return every field of the
aggregate to its initial value. -/
theorem clearState_not_full_reset_counterexample :
    Reachable staleFieldsState ∧
    staleFieldsState.step = Step.preview ∧
    (clearState staleFieldsState).error = some "Network failure" ∧
    (clearState staleFieldsState).language = Language.hindi ∧
    clearState staleFieldsState ≠ initialState := by
  refine ⟨?_, by decide, by decide, by decide, by decide⟩
  have h1 : Reachable { initialState with query := "Test Widget", language := Language.hindi } := by
    have h0 := Reachable.setLanguage
      { initialState with query := "Test Widget" } Language.hindi
      (Reachable.setQuery initialState "Test Widget" Reachable.init)
    exact h0
  exact Reachable.auth _ false "YOUTUBE_AUTH_SUCCESS"
    (Reachable.search _ (Except.error "Network failure")
      (Except.error "Network failure") h1 rfl)

/-- C5 amended: clearState removes the durable snapshot and returns
query, stage, productInfo, script and both artifact references to their
initial values, but leaves the language selection and the lastError field
untouched. -/
theorem clearState_resets_pipeline_fields (s : AppState)
    (store : Option Snapshot) :
    (clearState s).query = "" ∧
    (clearState s).step = Step.search ∧
    (clearState s).productInfo = "" ∧
    (clearState s).script = none ∧
    (clearState s).audioUrl = none ∧
    (clearState s).imageUrl = none ∧
    (clearState s).language = s.language ∧
    (clearState s).error = s.error ∧
    clearStateStore store = none :=
  ⟨rfl, rfl, rfl, rfl, rfl, rfl, rfl, rfl, rfl⟩

/-- C8 counterexample: a run still at the search stage is moved into the
preview stage by the auth success message, refuting that the signal
returns the stage to preview only when the run is not at an earlier
stage. -/
theorem auth_message_unconditional_counterexample :
    initialState.step = Step.search ∧
    (handleMessage initialState false "YOUTUBE_AUTH_SUCCESS").1.step =
      Step.preview := by
  decide

/-- C8 amended: on a message of type YOUTUBE_AUTH_SUCCESS the listener
flips the ConnectionFlag to true and unconditionally sets the stage to
preview whatever the current stage; every other message leaves the state
and flag alone; and the listener is not retired after the first
delivery - it stays registered until unmount, so a second success message
delivered after a reset again moves the stage to preview. -/
theorem auth_message_behavior (s : AppState) (connected : Bool) :
    handleMessage s connected "YOUTUBE_AUTH_SUCCESS" =
      ({ s with step := Step.preview }, true) ∧
    (∀ t, t ≠ "YOUTUBE_AUTH_SUCCESS" →
      handleMessage s connected t = (s, connected)) ∧
    (handleMessage
      (clearState (handleMessage s connected "YOUTUBE_AUTH_SUCCESS").1)
      true "YOUTUBE_AUTH_SUCCESS").1.step = Step.preview := by
  refine ⟨rfl, fun t ht => ?_, rfl⟩
  simp [handleMessage, ht]

/-- C8 amended witness: the behavior theorem applied at the initial state
and a non-matching message type. -/
theorem auth_message_behavior_witness :
    handleMessage initialState false "PING" = (initialState, false) :=
  (auth_message_behavior initialState false).2.1 "PING" (by decide)

/-- C9: absent artifacts are omitted from the bundle, never an error:
with a null image the archive has no visual.png entry and with null audio
no audio.wav entry; and with only the script present the archive holds
exactly one entry, script.txt, carrying the HOOK / BODY / CTA rendering
separated by blank lines. -/
theorem downloadAll_omits_absent (s : AppState) (scr : Script)
    (hscr : s.script = some scr) (ha : s.audioUrl = none)
    (hi : s.imageUrl = none) :
    handleDownloadAll s =
      [("script.txt",
        "HOOK: " ++ scr.hook ++ "\n\nBODY: " ++ scr.body ++ "\n\nCTA: " ++
          scr.cta)] ∧
    (handleDownloadAll s).length = 1 ∧
    (∀ u : AppState, u.imageUrl = none →
      "visual.png" ∉ (handleDownloadAll u).map Prod.fst) ∧
    (∀ u : AppState, u.audioUrl = none →
      "audio.wav" ∉ (handleDownloadAll u).map Prod.fst) := by
  have hmain : handleDownloadAll s =
      [("script.txt",
        "HOOK: " ++ scr.hook ++ "\n\nBODY: " ++ scr.body ++ "\n\nCTA: " ++
          scr.cta)] := by
    simp [handleDownloadAll, hscr, ha, hi, scriptText]
  refine ⟨hmain, by rw [hmain]; rfl, fun u hu => ?_, fun u hu => ?_⟩
  · rcases hs : u.script with _ | v <;>
      rcases hau : u.audioUrl with _ | w <;>
      simp [handleDownloadAll, hu, hs, hau]
  · rcases hs : u.script with _ | v <;>
      rcases him : u.imageUrl with _ | w <;>
      simp [handleDownloadAll, hu, hs, him]

/-- A concrete state holding only a script, no artifacts. -/
def scriptOnlyState : AppState :=
  { initialState with
    script := some { hook := "Amazing!", body := "It works.", cta := "Buy now!" } }

/-- C9 witness: the bundle theorem applied at the concrete script-only
state: the archive holds exactly the script.txt entry. -/
theorem downloadAll_omits_absent_witness :
    handleDownloadAll scriptOnlyState =
      [("script.txt", "HOOK: Amazing!\n\nBODY: It works.\n\nCTA: Buy now!")] :=
  (downloadAll_omits_absent scriptOnlyState
      { hook := "Amazing!", body := "It works.", cta := "Buy now!" }
      rfl rfl rfl).1

/-- C10: a generator that resolves to null does not abort the
script-to-preview transition: with the audio generator resolving null and
the image generator resolving a payload, the stage still advances to
preview with the audio artifact left unset; and generateAudio itself
resolves null, rather than throwing, when the backend response carries no
inline audio payload. -/
theorem null_artifact_does_not_abort (s : AppState) (scr : Script)
    (img : String) (hstep : s.step = Step.script)
    (hscr : s.script = some scr) :
    (handleGenerateAssets s (Except.ok none)
      (Except.ok (some img))).step = Step.preview ∧
    (handleGenerateAssets s (Except.ok none)
      (Except.ok (some img))).audioUrl = none ∧
    (handleGenerateAssets s (Except.ok none)
      (Except.ok (some img))).imageUrl = some img ∧
    (∀ k : String, k ≠ "" →
      (generateAudio (some k) (Except.ok none)).1 = Except.ok none) := by
  refine ⟨?_, ?_, ?_, fun k hk => ?_⟩
  · simp [handleGenerateAssets, hscr]
  · simp [handleGenerateAssets, hscr]
  · simp [handleGenerateAssets, hscr]
  · simp [generateAudio, getAI, keyFalsy, hk]

/-- C10 witness: the theorem applied at the concrete script-stage state
with a null audio result and a concrete image payload. -/
theorem null_artifact_does_not_abort_witness :
    (handleGenerateAssets scriptStageState (Except.ok none)
      (Except.ok (some "data:image/png;base64,AAAA"))).step = Step.preview :=
  (null_artifact_does_not_abort scriptStageState
      { hook := "Amazing!", body := "It works.", cta := "Buy now!" }
      "data:image/png;base64,AAAA" rfl rfl).1

end SortsAi
